import Mathlib

/-!
Shallow embedding of the hse-python-backend repository:

* `src/lecture_2/hw/shop_api/main.py` and `src/lecture_3/hw/shop_api/main.py`,
  the two iterations of the in-memory shop (products, carts);
* the user/account service of lecture 4, whose core module
  (`lecture_4/demo_service`) is not present in the repository snapshot, only
  its tests: that part is modelled from the specification.

Python dicts keyed by `int` are modelled as insertion-ordered association
lists (`PyDict`); floats (prices) are modelled as rationals; handlers that
raise `HTTPException` return `Except HTTPError`, paired with the (possibly
mutated) state.
-/

set_option autoImplicit false

/-- Insertion-ordered association list: the model of a Python `Dict[int, α]`.
In a real Python dict keys are unique; look-ups here take the first match,
which coincides with dict semantics on all states built by `dictSet`. -/
abbrev PyDict (α : Type) : Type := List (Nat × α)

/-- Python `k in d`. -/
def dictMem {α : Type} (d : PyDict α) (k : Nat) : Bool :=
  d.any (fun e => e.1 == k)

/-- Python `d[k]` as an optional read (the `none` case models `KeyError`). -/
def dictGet? {α : Type} (d : PyDict α) (k : Nat) : Option α :=
  (d.find? (fun e => e.1 == k)).map (fun e => e.2)

/-- Python `d[k] = v`: overwrite in place if the key is present, else append
(insertion order is preserved, new keys go to the back). -/
def dictSet {α : Type} (d : PyDict α) (k : Nat) (v : α) : PyDict α :=
  match d with
  | [] => [(k, v)]
  | e :: rest => if e.1 == k then (k, v) :: rest else e :: dictSet rest k v

/-- In-place mutation of the object stored under key `k`
(Python `d[k].field = ...` or mutation through an alias of `d[k]`). -/
def dictModify {α : Type} (d : PyDict α) (k : Nat) (f : α → α) : PyDict α :=
  d.map (fun e => if e.1 == k then (e.1, f e.2) else e)

/-- Python `d.values()` (insertion order). -/
def dictValues {α : Type} (d : PyDict α) : List α :=
  d.map (fun e => e.2)

/-- Python `d.keys()` (insertion order). -/
def dictKeys {α : Type} (d : PyDict α) : List Nat :=
  d.map (fun e => e.1)

/-- `@dataclass Product` of the shop apps. -/
structure Product where
  id : Nat
  name : String
  price : Rat
  deleted : Bool := false
deriving DecidableEq, Repr

/-- `@dataclass CartProduct` of the shop apps. -/
structure CartProduct where
  id : Nat
  name : String
  quantity : Nat
  available : Bool
deriving DecidableEq, Repr

/-- `@dataclass ShoppingCart` of the shop apps. -/
structure ShoppingCart where
  id : Nat
  items : List CartProduct := []
  price : Rat := 0
  quantity : Nat := 0
deriving DecidableEq, Repr

/-- `fastapi.HTTPException(status_code, detail)`. -/
structure HTTPError where
  status : Nat
  detail : String
deriving DecidableEq, Repr

/-- The two module-level storages `cart_storage` and `item_storage`. -/
structure ShopState where
  cart_storage : PyDict ShoppingCart
  item_storage : PyDict Product
deriving DecidableEq, Repr

/-- Both storages start empty. -/
def emptyShop : ShopState := ⟨[], []⟩

/-- One key/value entry of the JSON body `product_data` of the update
endpoints: a `"name"` entry carries a string, a `"price"` entry a number,
and any other key is invalid (the embedding assumes well-typed payloads for
the two known keys, which every claim under study does). -/
inductive ProductField where
  | nameField (s : String)
  | priceField (q : Rat)
  | otherField (key : String)
deriving DecidableEq, Repr

/-- Python `setattr(product, field, value)` for the two valid fields. -/
def set_field (p : Product) (f : ProductField) : Product :=
  match f with
  | .nameField s => { p with name := s }
  | .priceField q => { p with price := q }
  | .otherField _ => p

/-- The `for field in product_data` loop shared by both lectures' PATCH
handlers: fields are applied one at a time (mutating the stored product),
and hitting an invalid key raises 422 with the mutations so far kept.
The `[]` base case returns `item_storage[product_id]` (its `none` branch is
unreachable from the handlers, which only call this on a present key). -/
def apply_fields (product_id : Nat) (fields : List ProductField) (s : ShopState) :
    Except HTTPError Product × ShopState :=
  match fields with
  | [] =>
    match dictGet? s.item_storage product_id with
    | some p => (.ok p, s)
    | none => (.error ⟨404, "Item not found"⟩, s)
  | f :: rest =>
    match f with
    | .otherField _ => (.error ⟨422, "Invalid field"⟩, s)
    | _ =>
      apply_fields product_id rest
        { s with item_storage := dictModify s.item_storage product_id (fun p => set_field p f) }

/-- `product_data["name"]` (first `"name"` entry; dict keys are unique). -/
def firstName? (fields : List ProductField) : Option String :=
  match fields with
  | [] => none
  | .nameField s :: _ => some s
  | _ :: rest => firstName? rest

/-- `product_data["price"]` (first `"price"` entry; dict keys are unique). -/
def firstPrice? (fields : List ProductField) : Option Rat :=
  match fields with
  | [] => none
  | .priceField q :: _ => some q
  | _ :: rest => firstPrice? rest

/-- The `for cart_product in cart.items: ... break / else: append` loop of
`add_product_to_cart`, shared by both lectures: increment the quantity of the
first entry whose `id` equals the path parameter `item_id`, or append a fresh
entry built from the stored product if no entry matches. -/
def add_item_to_list (items : List CartProduct) (item_id : Nat) (item : Product) :
    List CartProduct :=
  match items with
  | [] => [{ id := item.id, name := item.name, quantity := 1, available := !item.deleted }]
  | cp :: rest =>
    if cp.id == item_id then { cp with quantity := cp.quantity + 1 } :: rest
    else cp :: add_item_to_list rest item_id item

namespace Lecture2

/-- `POST /cart` of lecture 2: id is `len(cart_storage) + 1`. -/
def create_shopping_cart (s : ShopState) : Nat × ShopState :=
  let cart_id := s.cart_storage.length + 1
  (cart_id, { s with cart_storage := dictSet s.cart_storage cart_id { id := cart_id } })

/-- `GET /cart/{cart_id}` of lecture 2. -/
def retrieve_cart (cart_id : Nat) (s : ShopState) : Except HTTPError ShoppingCart :=
  match dictGet? s.cart_storage cart_id with
  | none => .error ⟨404, "Cart not found"⟩
  | some c => .ok c

/-- `GET /cart` of lecture 2: filter by price and by the sum of the item
quantities, then slice `[offset : offset + limit]`. -/
def list_shopping_carts (offset limit : Nat) (min_price max_price : Option Rat)
    (min_quantity max_quantity : Option Nat) (s : ShopState) : List ShoppingCart :=
  let filtered_carts := (dictValues s.cart_storage).filter (fun cart =>
    (match min_price with | none => true | some mp => decide (cart.price ≥ mp)) &&
    (match max_price with | none => true | some mp => decide (cart.price ≤ mp)) &&
    (match min_quantity with
     | none => true
     | some mq => decide ((cart.items.map (fun item => item.quantity)).sum ≥ mq)) &&
    (match max_quantity with
     | none => true
     | some mq => decide ((cart.items.map (fun item => item.quantity)).sum ≤ mq)))
  (filtered_carts.drop offset).take limit

/-- `PATCH /item/{product_id}` of lecture 2 (Python `partial_update_product`):
404 on a missing key, 304 on a soft-deleted product, else apply the fields. -/
def patch_product (product_id : Nat) (product_data : List ProductField) (s : ShopState) :
    Except HTTPError Product × ShopState :=
  match dictGet? s.item_storage product_id with
  | none => (.error ⟨404, "Item not found"⟩, s)
  | some p =>
    if p.deleted then (.error ⟨304, "Not modified"⟩, s)
    else apply_fields product_id product_data s

/-- `POST /item` of lecture 2: id is `len(item_storage) + 1`. -/
def create_product (pname : String) (pprice : Rat) (s : ShopState) : Product × ShopState :=
  let product_id := s.item_storage.length + 1
  let p : Product := { id := product_id, name := pname, price := pprice }
  (p, { s with item_storage := dictSet s.item_storage product_id p })

/-- `GET /item/{product_id}` of lecture 2: 404 on a missing key and 404
(with a distinct detail) on a soft-deleted product. -/
def retrieve_product (product_id : Nat) (s : ShopState) : Except HTTPError Product :=
  match dictGet? s.item_storage product_id with
  | none => .error ⟨404, "Item not found"⟩
  | some p =>
    if p.deleted then .error ⟨404, "Item not found (deleted)"⟩
    else .ok p

/-- `GET /item` of lecture 2: filter by the soft-deletion flag (unless
`show_deleted`) and by price, then slice `[offset : offset + limit]`. -/
def list_products (offset limit : Nat) (min_price max_price : Option Rat)
    (show_deleted : Bool) (s : ShopState) : List Product :=
  let filtered_items := (dictValues s.item_storage).filter (fun item =>
    (show_deleted || !item.deleted) &&
    (match min_price with | none => true | some mp => decide (item.price ≥ mp)) &&
    (match max_price with | none => true | some mp => decide (item.price ≤ mp)))
  (filtered_items.drop offset).take limit

/-- `DELETE /item/{product_id}` of lecture 2: soft deletion (flag flip). -/
def delete_product (product_id : Nat) (s : ShopState) : Except HTTPError String × ShopState :=
  match dictGet? s.item_storage product_id with
  | none => (.error ⟨404, "Item not found"⟩, s)
  | some p =>
    if p.deleted then (.ok "Item already marked as deleted", s)
    else (.ok "Item marked as deleted",
      { s with item_storage := (dictModify s.item_storage product_id
          (fun q => { q with deleted := true })) })

/-- `POST /cart/{cart_id}/add/{item_id}` of lecture 2: upsert the product
into the cart's item list, then bump the cart's price and quantity. -/
def add_product_to_cart (cart_id item_id : Nat) (s : ShopState) :
    Except HTTPError String × ShopState :=
  if dictMem s.cart_storage cart_id then
    match dictGet? s.item_storage item_id with
    | none => (.error ⟨404, "Item not found"⟩, s)
    | some item =>
      (.ok "Item added to cart",
        { s with cart_storage := dictModify s.cart_storage cart_id (fun cart =>
            { cart with
              items := add_item_to_list cart.items item_id item,
              price := cart.price + item.price,
              quantity := cart.quantity + 1 }) })
  else (.error ⟨404, "Cart not found"⟩, s)

/-- `PUT /item/{product_id}` of lecture 2: 404 on a missing key, 304 on a
soft-deleted product, 422 unless both `name` and `price` are supplied. -/
def update_product (product_id : Nat) (product_data : List ProductField) (s : ShopState) :
    Except HTTPError Product × ShopState :=
  match dictGet? s.item_storage product_id with
  | none => (.error ⟨404, "Item not found"⟩, s)
  | some p =>
    if p.deleted then (.error ⟨304, "Not modified"⟩, s)
    else
      match firstName? product_data, firstPrice? product_data with
      | some n, some q =>
        let p' : Product := { p with name := n, price := q }
        (.ok p', { s with item_storage := (dictModify s.item_storage product_id
            (fun r => { r with name := n, price := q })) })
      | _, _ => (.error ⟨422, "Invalid field"⟩, s)

end Lecture2

namespace Lecture3

/-- `POST /cart` of lecture 3 (Python `create_cart`): identical to lecture 2. -/
def create_cart (s : ShopState) : Nat × ShopState :=
  let cart_id := s.cart_storage.length + 1
  (cart_id, { s with cart_storage := dictSet s.cart_storage cart_id { id := cart_id } })

/-- `POST /item` of lecture 3: identical to lecture 2. -/
def create_product (pname : String) (pprice : Rat) (s : ShopState) : Product × ShopState :=
  let product_id := s.item_storage.length + 1
  let p : Product := { id := product_id, name := pname, price := pprice }
  (p, { s with item_storage := dictSet s.item_storage product_id p })

/-- `GET /item/{product_id}` of lecture 3: missing and soft-deleted products
share one combined check and one 404 detail. -/
def retrieve_product (product_id : Nat) (s : ShopState) : Except HTTPError Product :=
  match dictGet? s.item_storage product_id with
  | none => .error ⟨404, "Item not found"⟩
  | some p =>
    if p.deleted then .error ⟨404, "Item not found"⟩
    else .ok p

/-- `GET /item` of lecture 3: identical to lecture 2. -/
def list_products (offset limit : Nat) (min_price max_price : Option Rat)
    (show_deleted : Bool) (s : ShopState) : List Product :=
  let filtered_items := (dictValues s.item_storage).filter (fun item =>
    (show_deleted || !item.deleted) &&
    (match min_price with | none => true | some mp => decide (item.price ≥ mp)) &&
    (match max_price with | none => true | some mp => decide (item.price ≤ mp)))
  (filtered_items.drop offset).take limit

/-- `PATCH /item/{product_id}` of lecture 3 (Python `partial_update_product`):
unlike lecture 2, a soft-deleted product produces 404 "Item not found"
(combined with the missing-key check), not 304. -/
def patch_product (product_id : Nat) (product_data : List ProductField) (s : ShopState) :
    Except HTTPError Product × ShopState :=
  match dictGet? s.item_storage product_id with
  | none => (.error ⟨404, "Item not found"⟩, s)
  | some p =>
    if p.deleted then (.error ⟨404, "Item not found"⟩, s)
    else apply_fields product_id product_data s

/-- `PUT /item/{product_id}` of lecture 3: unlike lecture 2, a soft-deleted
product produces 404 "Item not found", not 304. -/
def update_product (product_id : Nat) (product_data : List ProductField) (s : ShopState) :
    Except HTTPError Product × ShopState :=
  match dictGet? s.item_storage product_id with
  | none => (.error ⟨404, "Item not found"⟩, s)
  | some p =>
    if p.deleted then (.error ⟨404, "Item not found"⟩, s)
    else
      match firstName? product_data, firstPrice? product_data with
      | some n, some q =>
        let p' : Product := { p with name := n, price := q }
        (.ok p', { s with item_storage := (dictModify s.item_storage product_id
            (fun r => { r with name := n, price := q })) })
      | _, _ => (.error ⟨422, "Invalid field"⟩, s)

/-- `DELETE /item/{product_id}` of lecture 3: identical to lecture 2. -/
def delete_product (product_id : Nat) (s : ShopState) : Except HTTPError String × ShopState :=
  match dictGet? s.item_storage product_id with
  | none => (.error ⟨404, "Item not found"⟩, s)
  | some p =>
    if p.deleted then (.ok "Item already marked as deleted", s)
    else (.ok "Item marked as deleted",
      { s with item_storage := (dictModify s.item_storage product_id
          (fun q => { q with deleted := true })) })

/-- `POST /cart/{cart_id}/add/{item_id}` of lecture 3: identical to lecture 2. -/
def add_product_to_cart (cart_id item_id : Nat) (s : ShopState) :
    Except HTTPError String × ShopState :=
  if dictMem s.cart_storage cart_id then
    match dictGet? s.item_storage item_id with
    | none => (.error ⟨404, "Item not found"⟩, s)
    | some item =>
      (.ok "Item added to cart",
        { s with cart_storage := dictModify s.cart_storage cart_id (fun cart =>
            { cart with
              items := add_item_to_list cart.items item_id item,
              price := cart.price + item.price,
              quantity := cart.quantity + 1 }) })
  else (.error ⟨404, "Cart not found"⟩, s)

end Lecture3

/-- One mutating request of either shop app (the read-only endpoints do not
change the storages). The lecture 3 handlers whose bodies coincide with
lecture 2 are covered by the lecture 2 constructors definitionally; the two
handlers that differ (PATCH and PUT) get their own constructors. -/
inductive ShopStep : ShopState → ShopState → Prop where
  | createCart (s : ShopState) : ShopStep s (Lecture2.create_shopping_cart s).2
  | createProduct (s : ShopState) (pname : String) (pprice : Rat) :
      ShopStep s (Lecture2.create_product pname pprice s).2
  | patchItem (s : ShopState) (pid : Nat) (fields : List ProductField) :
      ShopStep s (Lecture2.patch_product pid fields s).2
  | putItem (s : ShopState) (pid : Nat) (fields : List ProductField) :
      ShopStep s (Lecture2.update_product pid fields s).2
  | deleteItem (s : ShopState) (pid : Nat) : ShopStep s (Lecture2.delete_product pid s).2
  | addItem (s : ShopState) (cid iid : Nat) :
      ShopStep s (Lecture2.add_product_to_cart cid iid s).2
  | patchItem3 (s : ShopState) (pid : Nat) (fields : List ProductField) :
      ShopStep s (Lecture3.patch_product pid fields s).2
  | putItem3 (s : ShopState) (pid : Nat) (fields : List ProductField) :
      ShopStep s (Lecture3.update_product pid fields s).2

/-- States of the shop store reachable from the empty storages by any
sequence of requests. -/
inductive ShopReachable : ShopState → Prop where
  | empty : ShopReachable emptyShop
  | step {s s' : ShopState} : ShopReachable s → ShopStep s s' → ShopReachable s'

/-! ## The lecture 4 user/account service

The module `lecture_4/demo_service` itself is not part of the repository
snapshot (only its test suite is), so the definitions below are modelled
from the specification, sections 3, 4.1, 4.2 and 7. -/

/-- Modelled from the spec: the role of an account, `USER | ADMIN`
(missing `lecture_4/demo_service/core/users.py`). -/
inductive UserRole where
  | user
  | admin
deriving DecidableEq, Repr

/-- Modelled from the spec: the data supplied at registration — username,
display name, birthdate, role (defaulting to USER when the caller does not
specify one) and password (missing `lecture_4/demo_service/core/users.py`). -/
structure UserInfo where
  username : String
  name : String
  birthdate : String
  role : UserRole := UserRole.user
  password : String
deriving DecidableEq, Repr

/-- Modelled from the spec: a stored account — the assigned identifier
together with its info (missing `lecture_4/demo_service/core/users.py`). -/
structure UserEntity where
  uid : Nat
  info : UserInfo
deriving DecidableEq, Repr

/-- Modelled from the spec: the error taxonomy of section 7 plus the
BadRequest and server-error outcomes of section 4.2 (missing
`lecture_4/demo_service`). -/
inductive UserError where
  | validationError
  | conflictError
  | notFoundError
  | unauthorized
  | forbidden
  | badRequest
  | serverError
deriving DecidableEq, Repr

/-- Modelled from the spec: the account registry, a flat map keyed by an
incrementing integer identifier (missing
`lecture_4/demo_service/core/users.py`). -/
structure UserService where
  users : PyDict UserEntity
deriving DecidableEq, Repr

/-- The registry starts empty. -/
def emptyUsers : UserService := ⟨[]⟩

/-- Modelled from the spec: the default password-strength predicate,
length > 8 (missing `lecture_4/demo_service/core/users.py`; the name is
taken from the test suite). -/
def password_is_longer_than_8 (password : String) : Bool :=
  password.length > 8

/-- Modelled from the spec: the default validator configuration of a
registry — just the length predicate. -/
def defaultValidators : List (String → Bool) :=
  [password_is_longer_than_8]

/-- Modelled from the spec: is the username already present in the registry? -/
def hasUsername (svc : UserService) (username : String) : Bool :=
  svc.users.any (fun e => e.2.info.username == username)

/-- Modelled from the spec: `get_by_id`, returning the account or an
absent-value marker; no error on miss. -/
def get_by_id (svc : UserService) (uid : Nat) : Option UserEntity :=
  dictGet? svc.users uid

/-- Modelled from the spec: `get_by_username`, returning the account or an
absent-value marker; no error on miss. -/
def get_by_username (svc : UserService) (username : String) : Option UserEntity :=
  (svc.users.find? (fun e => e.2.info.username == username)).map (fun e => e.2)

/-- Modelled from the spec: `register(info)` — fails with ConflictError if
the username is already present (the spec lists this check first), then
fails with ValidationError unless the password satisfies all configured
strength predicates, both before any mutation; on success assigns the fresh
identifier `current_count + 1` (section 3 invariant), stores the account
with the caller-supplied role (USER by default) and returns it (missing
`lecture_4/demo_service/core/users.py`). -/
def register (validators : List (String → Bool)) (svc : UserService) (info : UserInfo) :
    Except UserError UserEntity × UserService :=
  if hasUsername svc info.username then (.error .conflictError, svc)
  else if !(validators.all (fun v => v info.password)) then (.error .validationError, svc)
  else
    let uid := svc.users.length + 1
    let entity : UserEntity := { uid := uid, info := info }
    (.ok entity, { users := dictSet svc.users uid entity })

/-- Modelled from the spec: `grant_admin(id)` — fails with NotFoundError if
the id is unknown, otherwise flips the role to ADMIN (missing
`lecture_4/demo_service/core/users.py`). -/
def grant_admin (svc : UserService) (uid : Nat) : Except UserError Unit × UserService :=
  match dictGet? svc.users uid with
  | none => (.error .notFoundError, svc)
  | some _ =>
    (.ok (), { users := (dictModify svc.users uid
        (fun e => { e with info := { e.info with role := UserRole.admin } })) })

/-- Modelled from the spec: the query-by-id-or-username read operation
(`POST /user-get`) — exactly one of id and username must be given, both or
neither fails with BadRequest; a non-admin caller may only resolve their own
account, a cross-account attempt failing with the server error the reference
reports; a resolution miss fails with NotFound (missing
`lecture_4/demo_service/api`). -/
def user_get (author : UserEntity) (svc : UserService) (uid? : Option Nat)
    (username? : Option String) : Except UserError UserEntity :=
  match uid?, username? with
  | some _, some _ => .error .badRequest
  | none, none => .error .badRequest
  | some i, none =>
    if author.info.role == UserRole.admin || author.uid == i then
      match get_by_id svc i with
      | some e => .ok e
      | none => .error .notFoundError
    else .error .serverError
  | none, some u =>
    if author.info.role == UserRole.admin || author.info.username == u then
      match get_by_username svc u with
      | some e => .ok e
      | none => .error .notFoundError
    else .error .serverError

/-- One mutating operation of the user service: a registration attempt
(under any validator configuration) or a promotion attempt. -/
inductive UserStep : UserService → UserService → Prop where
  | reg (svc : UserService) (vs : List (String → Bool)) (info : UserInfo) :
      UserStep svc (register vs svc info).2
  | promote (svc : UserService) (uid : Nat) : UserStep svc (grant_admin svc uid).2

/-- Registry states reachable from the empty registry. -/
inductive UserReachable : UserService → Prop where
  | empty : UserReachable emptyUsers
  | step {s s' : UserService} : UserReachable s → UserStep s s' → UserReachable s'

deriving instance DecidableEq for Except

/-! ## Specification-side predicates and invariants -/

/-- The aggregate ("total item") quantity of a cart: the sum of the
quantity fields of the entries in its item list. -/
def cart_total_quantity (c : ShoppingCart) : Nat :=
  (c.items.map (fun it => it.quantity)).sum

/-- Worded from the spec: a product passes the listing filters iff its price
lies inclusively between `min_price` and `max_price` when given, and it is
not soft-deleted unless `show_deleted` is set. -/
def spec_product_visible (min_price max_price : Option Rat) (show_deleted : Bool)
    (item : Product) : Bool :=
  (min_price.all (fun a => decide (a ≤ item.price))) &&
  (max_price.all (fun b => decide (item.price ≤ b))) &&
  (!item.deleted || show_deleted)

/-- Worded from the spec: a cart passes the listing filters iff its aggregate
price and its total item quantity lie inclusively within the given bounds. -/
def spec_cart_visible (min_price max_price : Option Rat)
    (min_quantity max_quantity : Option Nat) (cart : ShoppingCart) : Bool :=
  (min_price.all (fun a => decide (a ≤ cart.price))) &&
  (max_price.all (fun b => decide (cart.price ≤ b))) &&
  (min_quantity.all (fun a => decide (a ≤ cart_total_quantity cart))) &&
  (max_quantity.all (fun b => decide (cart_total_quantity cart ≤ b)))

/-- Invariant of reachable shop states: both key sets are exactly
`1, ..., count` (in insertion order), every stored product's `id` field
equals its key, and every cart's aggregates are consistent with its item
list (quantity = sum of entry quantities, entries at least 1, entry ids
pairwise distinct). -/
def ShopInv (s : ShopState) : Prop :=
  dictKeys s.cart_storage = List.range' 1 s.cart_storage.length ∧
  dictKeys s.item_storage = List.range' 1 s.item_storage.length ∧
  (∀ e ∈ s.item_storage, (e : Nat × Product).2.id = e.1) ∧
  (∀ c ∈ dictValues s.cart_storage,
    c.quantity = cart_total_quantity c ∧
    (∀ it ∈ c.items, 1 ≤ it.quantity) ∧
    (c.items.map (fun it => it.id)).Nodup)

/-- Invariant of reachable registry states: keys are exactly `1, ..., count`. -/
def UserInv (svc : UserService) : Prop :=
  dictKeys svc.users = List.range' 1 svc.users.length

/-! ## Concrete states used by counterexamples and witnesses -/

/-- A registration request with a strong password. -/
def infoAlice : UserInfo :=
  { username := "alice", name := "Alice A", birthdate := "1990-01-01T00:00:00",
    password := "LongPassword1" }

/-- The registry after registering `infoAlice` into the empty registry. -/
def svcAlice : UserService :=
  (register defaultValidators emptyUsers infoAlice).2

/-- A registration request whose username is taken and whose password is
8 characters or shorter. -/
def infoAliceShort : UserInfo :=
  { username := "alice", name := "Mallory M", birthdate := "1991-02-02T00:00:00",
    password := "short" }

/-- A stored non-admin account. -/
def entUser1 : UserEntity :=
  { uid := 1,
    info := { username := "user1", name := "User One", birthdate := "1990-01-01T00:00:00", password := "UserPassword123" } }

/-- A second stored non-admin account. -/
def entUser2 : UserEntity :=
  { uid := 2,
    info := { username := "user2", name := "User Two", birthdate := "1992-02-02T00:00:00", password := "UserPassword456" } }

/-- A registry holding the two accounts above. -/
def svcTwo : UserService := { users := [(1, entUser1), (2, entUser2)] }

/-- A soft-deleted product. -/
def pDel : Product := { id := 1, name := "apple", price := 5, deleted := true }

/-- A shop state holding only the soft-deleted product `pDel`. -/
def sDel : ShopState := { cart_storage := [], item_storage := [(1, pDel)] }

/-- A shop state with one cart already holding product 2 once, and product 2
in the catalog: exercises the upsert of add-to-cart. -/
def sCart : ShopState :=
  { cart_storage :=
      [(1, { id := 1, items := [{ id := 2, name := "pear", quantity := 1, available := true }], price := 3, quantity := 1 })],
    item_storage := [(2, { id := 2, name := "pear", price := 3 })] }

/-- The cart stored in `sCart`. -/
def cartDemo : ShoppingCart :=
  { id := 1, items := [{ id := 2, name := "pear", quantity := 1, available := true }],
    price := 3, quantity := 1 }

/-- The product stored in `sCart`. -/
def itemDemo : Product := { id := 2, name := "pear", price := 3 }

/-- A reachable shop state: create a cart, create a product, add it. -/
def sDemo : ShopState :=
  (Lecture2.add_product_to_cart 1 1
    (Lecture2.create_product "apple" 5 (Lecture2.create_shopping_cart emptyShop).2).2).2

/-! ## Library lemmas about the dict model -/

/-! ## Library lemmas about the dict model -/

theorem dictMem_false_iff {α : Type} (d : PyDict α) (k : Nat) :
    dictMem d k = false ↔ dictGet? d k = none := by
  induction d with
  | nil => simp [dictMem, dictGet?]
  | cons e rest ih =>
    by_cases h : e.1 = k
    · simp [dictMem, dictGet?, List.find?_cons, h]
    · have hb : (e.1 == k) = false := by simp [h]
      simp only [dictMem, dictGet?, List.any_cons, List.find?_cons, hb] at ih ⊢
      simp only [Bool.false_or]
      exact ih

theorem dictMem_true_of_get? {α : Type} {d : PyDict α} {k : Nat} {v : α}
    (h : dictGet? d k = some v) : dictMem d k = true := by
  cases hm : dictMem d k with
  | false => rw [(dictMem_false_iff d k).mp hm] at h; cases h
  | true => rfl

theorem dictGet?_modify {α : Type} (d : PyDict α) (k : Nat) (f : α → α) :
    dictGet? (dictModify d k f) k = (dictGet? d k).map f := by
  induction d with
  | nil => rfl
  | cons e rest ih =>
    by_cases h : e.1 = k
    · simp [dictGet?, dictModify, List.find?_cons, h]
    · have hb : (e.1 == k) = false := by simp [h]
      simp only [dictGet?, dictModify, List.map_cons, List.find?_cons, hb, if_neg,
        Bool.false_eq_true, not_false_iff] at ih ⊢
      simpa [hb] using ih

theorem dictKeys_modify {α : Type} (d : PyDict α) (k : Nat) (f : α → α) :
    dictKeys (dictModify d k f) = dictKeys d := by
  unfold dictKeys dictModify
  rw [List.map_map]
  apply List.map_congr_left
  intro e _
  by_cases h : e.1 = k
  · simp [h]
  · simp [Function.comp, h]

theorem length_dictModify {α : Type} (d : PyDict α) (k : Nat) (f : α → α) :
    (dictModify d k f).length = d.length := by
  simp [dictModify]

theorem dictSet_of_mem_false {α : Type} {d : PyDict α} {k : Nat} (v : α)
    (h : dictMem d k = false) : dictSet d k v = d ++ [(k, v)] := by
  induction d with
  | nil => rfl
  | cons e rest ih =>
    simp only [dictMem, List.any_cons, Bool.or_eq_false_iff] at h
    simp only [dictSet, h.1, List.cons_append]
    simp only [Bool.false_eq_true, if_false, List.cons.injEq, true_and]
    exact ih h.2

theorem dictKeys_append {α : Type} (d : PyDict α) (k : Nat) (v : α) :
    dictKeys (d ++ [(k, v)]) = dictKeys d ++ [k] := by
  simp [dictKeys]

theorem dictGet?_append_fresh {α : Type} {d : PyDict α} {k : Nat} (v : α)
    (h : dictMem d k = false) : dictGet? (d ++ [(k, v)]) k = some v := by
  induction d with
  | nil => simp [dictGet?, List.find?_cons]
  | cons e rest ih =>
    simp only [dictMem, List.any_cons, Bool.or_eq_false_iff] at h
    simp only [dictGet?, List.cons_append, List.find?_cons, h.1] at ih ⊢
    exact ih h.2

theorem mem_dictValues_modify {α : Type} {d : PyDict α} {k : Nat} {f : α → α} {c : α}
    (h : c ∈ dictValues (dictModify d k f)) :
    ∃ c0 ∈ dictValues d, c = c0 ∨ c = f c0 := by
  simp only [dictValues, dictModify, List.map_map, List.mem_map, Function.comp] at h
  obtain ⟨e, he, hc⟩ := h
  by_cases hk : (e.1 == k) = true
  · refine ⟨e.2, ?_, Or.inr ?_⟩
    · exact List.mem_map_of_mem (fun x => x.2) he
    · rw [if_pos hk] at hc
      exact hc.symm
  · refine ⟨e.2, ?_, Or.inl ?_⟩
    · exact List.mem_map_of_mem (fun x => x.2) he
    · rw [if_neg hk] at hc
      exact hc.symm

theorem not_mem_range'_top (n : Nat) : (n + 1) ∉ List.range' 1 n := by
  intro h
  rw [List.mem_range'_1] at h
  omega

/-! ## Lemmas about the add-to-cart loop -/

theorem add_item_of_any_false {items : List CartProduct} {iid : Nat} (item : Product)
    (h : items.any (fun cp => cp.id == iid) = false) :
    add_item_to_list items iid item =
      items ++ [{ id := item.id, name := item.name, quantity := 1, available := !item.deleted }] := by
  induction items with
  | nil => rfl
  | cons cp rest ih =>
    simp only [List.any_cons, Bool.or_eq_false_iff] at h
    simp only [add_item_to_list, h.1, Bool.false_eq_true, if_false, List.cons_append,
      List.cons.injEq, true_and]
    exact ih h.2

theorem add_item_of_any_true {items : List CartProduct} {iid : Nat} (item : Product)
    (h : items.any (fun cp => cp.id == iid) = true) :
    ∃ l1 cp l2, items = l1 ++ cp :: l2 ∧ (∀ x ∈ l1, (x.id == iid) = false) ∧ cp.id = iid ∧
      add_item_to_list items iid item = l1 ++ { cp with quantity := cp.quantity + 1 } :: l2 := by
  induction items with
  | nil => cases h
  | cons cp rest ih =>
    by_cases h1 : (cp.id == iid) = true
    · refine ⟨[], cp, rest, rfl, by simp, by simpa using h1, ?_⟩
      simp [add_item_to_list, h1]
    · have h1' : (cp.id == iid) = false := by
        cases hb : (cp.id == iid) with
        | true => exact absurd hb h1
        | false => rfl
      simp only [List.any_cons, h1', Bool.false_or] at h
      obtain ⟨l1, c0, l2, heq, hl1, hc0, hadd⟩ := ih h
      refine ⟨cp :: l1, c0, l2, by rw [heq]; rfl, ?_, hc0, ?_⟩
      · intro x hx
        rcases List.mem_cons.mp hx with hx | hx
        · rw [hx]; exact h1'
        · exact hl1 x hx
      · simp only [add_item_to_list, h1', Bool.false_eq_true, if_false, List.cons_append,
          List.cons.injEq, true_and]
        exact hadd

theorem add_item_sum {items : List CartProduct} {iid : Nat} (item : Product) :
    ((add_item_to_list items iid item).map (fun it => it.quantity)).sum =
      (items.map (fun it => it.quantity)).sum + 1 := by
  induction items with
  | nil => simp [add_item_to_list]
  | cons cp rest ih =>
    by_cases h : (cp.id == iid) = true
    · simp only [add_item_to_list, h, if_true, List.map_cons, List.sum_cons]
      omega
    · have h' : (cp.id == iid) = false := by
        cases hb : (cp.id == iid) with
        | true => exact absurd hb h
        | false => rfl
      simp only [add_item_to_list, h', Bool.false_eq_true, if_false, List.map_cons,
        List.sum_cons, ih]
      omega

theorem add_item_min {items : List CartProduct} {iid : Nat} (item : Product)
    (h : ∀ it ∈ items, 1 ≤ it.quantity) :
    ∀ it ∈ add_item_to_list items iid item, 1 ≤ it.quantity := by
  induction items with
  | nil =>
    intro it hit
    simp only [add_item_to_list, List.mem_singleton] at hit
    rw [hit]
  | cons cp rest ih =>
    intro it hit
    by_cases hb : (cp.id == iid) = true
    · simp only [add_item_to_list, hb, if_true, List.mem_cons] at hit
      rcases hit with hit | hit
      · rw [hit]; simp
      · exact h it (List.mem_cons_of_mem _ hit)
    · have hb' : (cp.id == iid) = false := by
        cases hc : (cp.id == iid) with
        | true => exact absurd hc hb
        | false => rfl
      simp only [add_item_to_list, hb', Bool.false_eq_true, if_false, List.mem_cons] at hit
      rcases hit with hit | hit
      · rw [hit]; exact h cp (List.mem_cons_self cp rest)
      · exact ih (fun x hx => h x (List.mem_cons_of_mem _ hx)) it hit

theorem add_item_nodup {items : List CartProduct} {iid : Nat} (item : Product)
    (hid : item.id = iid)
    (h : (items.map (fun it => it.id)).Nodup) :
    ((add_item_to_list items iid item).map (fun it => it.id)).Nodup := by
  cases hany : items.any (fun cp => cp.id == iid) with
  | true =>
    obtain ⟨l1, cp, l2, heq, _, _, hadd⟩ := add_item_of_any_true item hany
    rw [hadd]
    have : (l1 ++ { cp with quantity := cp.quantity + 1 } :: l2).map (fun it => it.id) =
        (l1 ++ cp :: l2).map (fun it => it.id) := by
      simp
    rw [this, ← heq]
    exact h
  | false =>
    rw [add_item_of_any_false item hany]
    simp only [List.map_append, List.map_singleton]
    rw [List.nodup_append]
    refine ⟨h, List.nodup_singleton _, ?_⟩
    intro a ha hb
    simp only [List.mem_singleton] at hb
    simp only [List.mem_map] at ha
    obtain ⟨cp, hcp, hcpid⟩ := ha
    have := List.any_eq_true.not.mp (by rw [hany]; exact Bool.false_ne_true)
    push_neg at this
    have hne := this cp hcp
    rw [hb, hid] at hcpid
    rw [hcpid] at hne
    simp at hne

/-! ## Invariant preservation for the shop -/

theorem dictMem_iff_mem_keys {α : Type} (d : PyDict α) (k : Nat) :
    dictMem d k = true ↔ k ∈ dictKeys d := by
  simp only [dictMem, dictKeys, List.any_eq_true, List.mem_map, beq_iff_eq]

theorem dictValues_append {α : Type} (d : PyDict α) (k : Nat) (v : α) :
    dictValues (d ++ [(k, v)]) = dictValues d ++ [v] := by
  simp [dictValues]

theorem dictMem_top_false {α : Type} {d : PyDict α}
    (h : dictKeys d = List.range' 1 d.length) : dictMem d (d.length + 1) = false := by
  cases hm : dictMem d (d.length + 1) with
  | false => rfl
  | true =>
    rw [dictMem_iff_mem_keys, h] at hm
    exact absurd hm (not_mem_range'_top d.length)

theorem range'_snoc (n : Nat) :
    List.range' 1 (n + 1) = List.range' 1 n ++ [n + 1] := by
  rw [List.range'_concat]
  congr 1
  simp [Nat.add_comm]

theorem get?_id_eq {d : PyDict Product} {k : Nat} {p : Product}
    (h3 : ∀ e ∈ d, (e : Nat × Product).2.id = e.1) (h : dictGet? d k = some p) :
    p.id = k := by
  unfold dictGet? at h
  cases hf : d.find? (fun e => e.1 == k) with
  | none => rw [hf] at h; cases h
  | some e =>
    rw [hf] at h
    have h' : e.2 = p := Option.some.inj h
    have hm := List.mem_of_find?_eq_some hf
    have hp := List.find?_some hf
    simp only [beq_iff_eq] at hp
    rw [← h', h3 e hm, hp]

theorem shopInv_modify_item (s : ShopState) (pid : Nat) (f : Product → Product)
    (hf : ∀ p, (f p).id = p.id) (h : ShopInv s) :
    ShopInv { s with item_storage := dictModify s.item_storage pid f } := by
  obtain ⟨h1, h2, h3, h4⟩ := h
  refine ⟨h1, ?_, ?_, h4⟩
  · rw [dictKeys_modify, length_dictModify]
    exact h2
  · intro e he
    simp only [dictModify, List.mem_map] at he
    obtain ⟨e0, he0, rfl⟩ := he
    by_cases hk : (e0.1 == pid) = true
    · simp only [if_pos hk, hf]
      exact h3 e0 he0
    · simp only [if_neg hk]
      exact h3 e0 he0

theorem set_field_id (p : Product) (f : ProductField) : (set_field p f).id = p.id := by
  cases f <;> rfl

theorem shopInv_apply_fields (pid : Nat) (fields : List ProductField) (s : ShopState)
    (h : ShopInv s) : ShopInv (apply_fields pid fields s).2 := by
  induction fields generalizing s with
  | nil =>
    unfold apply_fields
    cases dictGet? s.item_storage pid <;> exact h
  | cons f rest ih =>
    cases f with
    | otherField key => exact h
    | nameField n =>
      exact ih _ (shopInv_modify_item s pid _ (fun p => set_field_id p (.nameField n)) h)
    | priceField q =>
      exact ih _ (shopInv_modify_item s pid _ (fun p => set_field_id p (.priceField q)) h)

theorem shopInv_empty : ShopInv emptyShop := by
  refine ⟨rfl, rfl, ?_, ?_⟩
  · intro e he; cases he
  · intro c hc; cases hc

theorem shopInv_create_cart (s : ShopState) (h : ShopInv s) :
    ShopInv (Lecture2.create_shopping_cart s).2 := by
  obtain ⟨h1, h2, h3, h4⟩ := h
  have hfresh : dictMem s.cart_storage (s.cart_storage.length + 1) = false :=
    dictMem_top_false h1
  show ShopInv { s with cart_storage := (dictSet s.cart_storage (s.cart_storage.length + 1)
    { id := s.cart_storage.length + 1 }) }
  rw [dictSet_of_mem_false _ hfresh]
  refine ⟨?_, h2, h3, ?_⟩
  · show dictKeys (s.cart_storage ++ [(s.cart_storage.length + 1, _)]) = _
    rw [dictKeys_append, h1]
    simp only [List.length_append, List.length_cons, List.length_nil]
    rw [range'_snoc]
  · intro c hc
    rw [dictValues_append] at hc
    rcases List.mem_append.mp hc with hc | hc
    · exact h4 c hc
    · simp only [List.mem_singleton] at hc
      subst hc
      exact ⟨rfl, fun it hit => absurd hit (List.not_mem_nil it), List.nodup_nil⟩

theorem shopInv_create_product (s : ShopState) (pname : String) (pprice : Rat)
    (h : ShopInv s) : ShopInv (Lecture2.create_product pname pprice s).2 := by
  obtain ⟨h1, h2, h3, h4⟩ := h
  have hfresh : dictMem s.item_storage (s.item_storage.length + 1) = false :=
    dictMem_top_false h2
  show ShopInv { s with item_storage := (dictSet s.item_storage (s.item_storage.length + 1)
    { id := s.item_storage.length + 1, name := pname, price := pprice }) }
  rw [dictSet_of_mem_false _ hfresh]
  refine ⟨h1, ?_, ?_, h4⟩
  · show dictKeys (s.item_storage ++ [(s.item_storage.length + 1, _)]) = _
    rw [dictKeys_append, h2]
    simp only [List.length_append, List.length_cons, List.length_nil]
    rw [range'_snoc]
  · intro e he
    rcases List.mem_append.mp he with he | he
    · exact h3 e he
    · simp only [List.mem_singleton] at he
      subst he
      rfl

theorem shopInv_add (s : ShopState) (cid iid : Nat) (h : ShopInv s) :
    ShopInv (Lecture2.add_product_to_cart cid iid s).2 := by
  unfold Lecture2.add_product_to_cart
  by_cases hm : dictMem s.cart_storage cid = true
  · cases hi : dictGet? s.item_storage iid with
    | none => simp only [hm, if_true, hi]; exact h
    | some item =>
      obtain ⟨h1, h2, h3, h4⟩ := h
      simp only [hm, if_true, hi]
      refine ⟨?_, h2, h3, ?_⟩
      · rw [dictKeys_modify, length_dictModify]
        exact h1
      · intro c hc
        obtain ⟨c0, hc0, hcc⟩ :=
          @mem_dictValues_modify ShoppingCart s.cart_storage cid
            (fun cart => { cart with
              items := add_item_to_list cart.items iid item,
              price := cart.price + item.price,
              quantity := cart.quantity + 1 }) c hc
        obtain ⟨hq, hmin, hnd⟩ := h4 c0 hc0
        rcases hcc with rfl | rfl
        · exact ⟨hq, hmin, hnd⟩
        · have hid : item.id = iid := get?_id_eq h3 hi
          refine ⟨?_, ?_, ?_⟩
          · show c0.quantity + 1 = cart_total_quantity _
            unfold cart_total_quantity at hq ⊢
            rw [add_item_sum, ← hq]
          · intro it hit
            exact add_item_min item hmin it hit
          · exact add_item_nodup item hid hnd
  · simp only [Bool.not_eq_true] at hm
    simp only [hm, Bool.false_eq_true, if_false]
    exact h

theorem shopInv_patch (s : ShopState) (pid : Nat) (fields : List ProductField)
    (h : ShopInv s) : ShopInv (Lecture2.patch_product pid fields s).2 := by
  unfold Lecture2.patch_product
  cases hg : dictGet? s.item_storage pid with
  | none => exact h
  | some p =>
    by_cases hd : p.deleted = true
    · simp only [hd, if_true]
      exact h
    · simp only [hd, if_false]
      exact shopInv_apply_fields pid fields s h

theorem shopInv_put (s : ShopState) (pid : Nat) (fields : List ProductField)
    (h : ShopInv s) : ShopInv (Lecture2.update_product pid fields s).2 := by
  unfold Lecture2.update_product
  cases hg : dictGet? s.item_storage pid with
  | none => exact h
  | some p =>
    by_cases hd : p.deleted = true
    · simp only [hd, if_true]
      exact h
    · simp only [hd, if_false]
      cases hn : firstName? fields with
      | none => cases hp : firstPrice? fields <;> exact h
      | some n =>
        cases hp : firstPrice? fields with
        | none => exact h
        | some q =>
          exact shopInv_modify_item s pid _ (fun r => rfl) h

theorem shopInv_delete (s : ShopState) (pid : Nat) (h : ShopInv s) :
    ShopInv (Lecture2.delete_product pid s).2 := by
  unfold Lecture2.delete_product
  cases hg : dictGet? s.item_storage pid with
  | none => exact h
  | some p =>
    by_cases hd : p.deleted = true
    · simp only [hd, if_true]
      exact h
    · simp only [hd, if_false]
      exact shopInv_modify_item s pid _ (fun r => rfl) h

theorem shopInv_patch3 (s : ShopState) (pid : Nat) (fields : List ProductField)
    (h : ShopInv s) : ShopInv (Lecture3.patch_product pid fields s).2 := by
  unfold Lecture3.patch_product
  cases hg : dictGet? s.item_storage pid with
  | none => exact h
  | some p =>
    by_cases hd : p.deleted = true
    · simp only [hd, if_true]
      exact h
    · simp only [hd, if_false]
      exact shopInv_apply_fields pid fields s h

theorem shopInv_put3 (s : ShopState) (pid : Nat) (fields : List ProductField)
    (h : ShopInv s) : ShopInv (Lecture3.update_product pid fields s).2 := by
  unfold Lecture3.update_product
  cases hg : dictGet? s.item_storage pid with
  | none => exact h
  | some p =>
    by_cases hd : p.deleted = true
    · simp only [hd, if_true]
      exact h
    · simp only [hd, if_false]
      cases hn : firstName? fields with
      | none => cases hp : firstPrice? fields <;> exact h
      | some n =>
        cases hp : firstPrice? fields with
        | none => exact h
        | some q =>
          exact shopInv_modify_item s pid _ (fun r => rfl) h

theorem shopInv_step {s s' : ShopState} (h : ShopInv s) (hs : ShopStep s s') : ShopInv s' := by
  cases hs with
  | createCart => exact shopInv_create_cart s h
  | createProduct pname pprice => exact shopInv_create_product s pname pprice h
  | patchItem pid fields => exact shopInv_patch s pid fields h
  | putItem pid fields => exact shopInv_put s pid fields h
  | deleteItem pid => exact shopInv_delete s pid h
  | addItem cid iid => exact shopInv_add s cid iid h
  | patchItem3 pid fields => exact shopInv_patch3 s pid fields h
  | putItem3 pid fields => exact shopInv_put3 s pid fields h

theorem shopInv_reachable {s : ShopState} (h : ShopReachable s) : ShopInv s := by
  induction h with
  | empty => exact shopInv_empty
  | step hr hs ih => exact shopInv_step ih hs

/-! ## Invariant preservation for the user service -/

theorem dictModify_idem {α : Type} (d : PyDict α) (k : Nat) (f : α → α)
    (hf : ∀ x, f (f x) = f x) :
    dictModify (dictModify d k f) k f = dictModify d k f := by
  unfold dictModify
  rw [List.map_map]
  apply List.map_congr_left
  intro e _
  by_cases h : e.1 = k
  · simp [Function.comp, h, hf]
  · simp [Function.comp, h]

theorem keysRange_snoc {α : Type} {d : PyDict α} (v : α)
    (h : dictKeys d = List.range' 1 d.length) :
    dictKeys (dictSet d (d.length + 1) v) = List.range' 1 (dictSet d (d.length + 1) v).length := by
  have hfresh := dictMem_top_false h
  rw [dictSet_of_mem_false v hfresh, dictKeys_append, h, List.length_append]
  simp only [List.length_cons, List.length_nil, Nat.zero_add]
  rw [range'_snoc]

theorem keysRange_modify {α : Type} {d : PyDict α} {k : Nat} (f : α → α)
    (h : dictKeys d = List.range' 1 d.length) :
    dictKeys (dictModify d k f) = List.range' 1 (dictModify d k f).length := by
  rw [dictKeys_modify, length_dictModify]
  exact h

theorem userInv_empty : UserInv emptyUsers := rfl

theorem userInv_register (vs : List (String → Bool)) (svc : UserService) (info : UserInfo)
    (h : UserInv svc) : UserInv (register vs svc info).2 := by
  unfold register
  by_cases h1 : hasUsername svc info.username = true
  · simp only [h1, if_true]
    exact h
  · simp only [h1, if_false]
    by_cases h2 : (!(vs.all (fun v => v info.password))) = true
    · simp only [h2, if_true]
      exact h
    · simp only [h2, if_false]
      exact keysRange_snoc _ h

theorem userInv_promote (svc : UserService) (uid : Nat) (h : UserInv svc) :
    UserInv (grant_admin svc uid).2 := by
  unfold grant_admin
  cases hg : dictGet? svc.users uid with
  | none => exact h
  | some e =>
    have h' : dictKeys svc.users = List.range' 1 svc.users.length := h
    show UserInv { users := (dictModify svc.users uid
      (fun e => { e with info := { e.info with role := UserRole.admin } })) }
    simp only [UserInv]
    rw [dictKeys_modify, length_dictModify]
    exact h'

theorem userInv_step {s s' : UserService} (h : UserInv s) (hs : UserStep s s') : UserInv s' := by
  cases hs with
  | reg vs info => exact userInv_register vs s info h
  | promote uid => exact userInv_promote s uid h

theorem userInv_reachable {s : UserService} (h : UserReachable s) : UserInv s := by
  induction h with
  | empty => exact userInv_empty
  | step hr hs ih => exact userInv_step ih hs

/-! ## Claim theorems -/

/-- C5: for every registry state and every caller, the query-by-id-or-username
read operation (`user_get`) fails with BadRequest whenever both id and
username are supplied, and also whenever neither is supplied, independently
of the contents of the registry. -/
theorem C5_user_get_requires_exactly_one_param :
    ∀ (author : UserEntity) (svc : UserService) (i : Nat) (u : String),
      user_get author svc (some i) (some u) = .error .badRequest ∧
      user_get author svc none none = .error .badRequest := by
  intro author svc i u
  exact ⟨rfl, rfl⟩

/-- C4: `grant_admin` on an identifier not present fails with NotFoundError
and leaves the registry unchanged; on a present identifier it sets that
account's role to ADMIN; applying it a second time to the same identifier
leaves the registry in the same state (idempotence). -/
theorem C4_grant_admin_not_found_and_idempotent :
    (∀ (svc : UserService) (uid : Nat), get_by_id svc uid = none →
        grant_admin svc uid = (.error .notFoundError, svc)) ∧
    (∀ (svc : UserService) (uid : Nat) (e : UserEntity), get_by_id svc uid = some e →
        get_by_id (grant_admin svc uid).2 uid =
          some { e with info := { e.info with role := UserRole.admin } }) ∧
    (∀ (svc : UserService) (uid : Nat),
        (grant_admin (grant_admin svc uid).2 uid).2 = (grant_admin svc uid).2) := by
  refine ⟨?_, ?_, ?_⟩
  · intro svc uid h
    have h' : dictGet? svc.users uid = none := h
    unfold grant_admin
    rw [h']
  · intro svc uid e h
    have h' : dictGet? svc.users uid = some e := h
    unfold grant_admin
    rw [h']
    show get_by_id { users := (dictModify svc.users uid
      (fun x => { x with info := { x.info with role := UserRole.admin } })) } uid = _
    unfold get_by_id
    show dictGet? (dictModify svc.users uid
      (fun x => { x with info := { x.info with role := UserRole.admin } })) uid = _
    rw [dictGet?_modify, h']
    rfl
  · intro svc uid
    cases hg : dictGet? svc.users uid with
    | none =>
      have e1 : (grant_admin svc uid).2 = svc := by
        unfold grant_admin
        rw [hg]
      rw [e1]
      exact e1
    | some e =>
      have e1 : (grant_admin svc uid).2 = UserService.mk (dictModify svc.users uid
          (fun x => { x with info := { x.info with role := UserRole.admin } })) := by
        unfold grant_admin
        rw [hg]
      have e2 : dictGet? (dictModify svc.users uid
          (fun x => { x with info := { x.info with role := UserRole.admin } })) uid =
          some { e with info := { e.info with role := UserRole.admin } } := by
        rw [dictGet?_modify, hg]
        rfl
      rw [e1]
      unfold grant_admin
      show (match dictGet? (dictModify svc.users uid
          (fun x => { x with info := { x.info with role := UserRole.admin } })) uid with
        | none => (Except.error UserError.notFoundError, UserService.mk _)
        | some _ => (Except.ok (), UserService.mk (dictModify (dictModify svc.users uid
            (fun x => { x with info := { x.info with role := UserRole.admin } })) uid
            (fun x => { x with info := { x.info with role := UserRole.admin } })))).2 = _
      rw [e2]
      show UserService.mk (dictModify (dictModify svc.users uid
          (fun x => { x with info := { x.info with role := UserRole.admin } })) uid
          (fun x => { x with info := { x.info with role := UserRole.admin } })) = _
      congr 1
      exact dictModify_idem _ _ _ (fun x => rfl)

/-- C4 witness: instantiation at a concrete two-user registry (unknown id
1234, known id 1). -/
theorem C4_grant_admin_witness :
    (get_by_id svcTwo 1234 = none ∧
      grant_admin svcTwo 1234 = (.error .notFoundError, svcTwo)) ∧
    (get_by_id svcTwo 1 = some entUser1 ∧
      get_by_id (grant_admin svcTwo 1).2 1 =
        some { entUser1 with info := { entUser1.info with role := UserRole.admin } }) ∧
    (grant_admin (grant_admin svcTwo 1).2 1).2 = (grant_admin svcTwo 1).2 := by
  refine ⟨⟨by decide, ?_⟩, ⟨by decide, ?_⟩, ?_⟩
  · exact C4_grant_admin_not_found_and_idempotent.1 svcTwo 1234 (by decide)
  · exact C4_grant_admin_not_found_and_idempotent.2.1 svcTwo 1 entUser1 (by decide)
  · exact C4_grant_admin_not_found_and_idempotent.2.2 svcTwo 1

/-- C6: a non-admin caller resolving any account other than their own (id or
username not matching the caller) fails — the model reports the server error
of the reference behavior — and a non-admin query can only succeed when the
queried id or username matches the caller. -/
theorem C6_non_admin_resolves_only_self :
    (∀ (author : UserEntity) (svc : UserService) (i : Nat) (e : UserEntity),
      author.info.role ≠ UserRole.admin → get_by_id svc i = some e → i ≠ author.uid →
        user_get author svc (some i) none = .error .serverError) ∧
    (∀ (author : UserEntity) (svc : UserService) (u : String) (e : UserEntity),
      author.info.role ≠ UserRole.admin → get_by_username svc u = some e →
      u ≠ author.info.username →
        user_get author svc none (some u) = .error .serverError) ∧
    (∀ (author : UserEntity) (svc : UserService) (uid? : Option Nat)
        (username? : Option String) (e : UserEntity),
      author.info.role ≠ UserRole.admin →
      user_get author svc uid? username? = .ok e →
        uid? = some author.uid ∨ username? = some author.info.username) := by
  refine ⟨?_, ?_, ?_⟩
  · intro author svc i e hrole hget hne
    have hb : (author.info.role == UserRole.admin || author.uid == i) = false := by
      simp only [Bool.or_eq_false_iff, beq_eq_false_iff_ne]
      exact ⟨hrole, fun h => hne h.symm⟩
    unfold user_get
    simp only [hb, Bool.false_eq_true, if_false]
  · intro author svc u e hrole hget hne
    have hb : (author.info.role == UserRole.admin || author.info.username == u) = false := by
      simp only [Bool.or_eq_false_iff, beq_eq_false_iff_ne]
      exact ⟨hrole, fun h => hne h.symm⟩
    unfold user_get
    simp only [hb, Bool.false_eq_true, if_false]
  · intro author svc uid? username? e hrole hok
    cases uid? with
    | some i =>
      cases username? with
      | some u => exact absurd hok (by unfold user_get; simp)
      | none =>
        left
        by_cases hb : (author.info.role == UserRole.admin || author.uid == i) = true
        · rcases Bool.or_eq_true_iff.mp hb with hb | hb
          · exact absurd (by simpa using hb) hrole
          · have : author.uid = i := by simpa using hb
            rw [this]
        · unfold user_get at hok
          simp only [Bool.not_eq_true] at hb
          simp only [hb, Bool.false_eq_true, if_false] at hok
          cases hok
    | none =>
      cases username? with
      | none => exact absurd hok (by unfold user_get; simp)
      | some u =>
        right
        by_cases hb : (author.info.role == UserRole.admin || author.info.username == u) = true
        · rcases Bool.or_eq_true_iff.mp hb with hb | hb
          · exact absurd (by simpa using hb) hrole
          · have : author.info.username = u := by simpa using hb
            rw [this]
        · unfold user_get at hok
          simp only [Bool.not_eq_true] at hb
          simp only [hb, Bool.false_eq_true, if_false] at hok
          cases hok

/-- C6 witness: the non-admin `entUser1` cannot resolve `entUser2` by id or
by username in the concrete registry `svcTwo`. -/
theorem C6_non_admin_resolves_only_self_witness :
    (entUser1.info.role ≠ UserRole.admin ∧ get_by_id svcTwo 2 = some entUser2 ∧
      2 ≠ entUser1.uid ∧ user_get entUser1 svcTwo (some 2) none = .error .serverError) ∧
    (get_by_username svcTwo "user2" = some entUser2 ∧ "user2" ≠ entUser1.info.username ∧
      user_get entUser1 svcTwo none (some "user2") = .error .serverError) := by
  refine ⟨⟨by decide, by decide, by decide, ?_⟩, ⟨by decide, by decide, ?_⟩⟩
  · exact C6_non_admin_resolves_only_self.1 entUser1 svcTwo 2 entUser2
      (by decide) (by decide) (by decide)
  · exact C6_non_admin_resolves_only_self.2.1 entUser1 svcTwo "user2" entUser2
      (by decide) (by decide) (by decide)

/-- C1: registering an already-present username fails with ConflictError and
leaves the registry (in particular the previously stored account with that
username — identifier, role, name, birthdate, password) unchanged; with a
fresh username and a password accepted by every configured validator, the
registration assigns the fresh identifier `count + 1` (fresh in every
reachable registry), stores the account with the caller-supplied role —
which defaults to USER when not specified — and returns the stored account. -/
theorem C1_register_conflict_and_success :
    (∀ (vs : List (String → Bool)) (svc : UserService) (info : UserInfo),
      hasUsername svc info.username = true →
        register vs svc info = (.error .conflictError, svc) ∧
        get_by_username (register vs svc info).2 info.username =
          get_by_username svc info.username) ∧
    (∀ (vs : List (String → Bool)) (svc : UserService) (info : UserInfo),
      UserReachable svc →
      hasUsername svc info.username = false →
      vs.all (fun v => v info.password) = true →
        (register vs svc info).1 = .ok { uid := svc.users.length + 1, info := info } ∧
        dictMem svc.users (svc.users.length + 1) = false ∧
        get_by_id (register vs svc info).2 (svc.users.length + 1) =
          some { uid := svc.users.length + 1, info := info }) ∧
    (∀ (u n b p : String),
      ({ username := u, name := n, birthdate := b, password := p } : UserInfo).role =
        UserRole.user) := by
  refine ⟨?_, ?_, ?_⟩
  · intro vs svc info h
    have h1 : register vs svc info = (.error .conflictError, svc) := by
      unfold register
      rw [h]
      rfl
    exact ⟨h1, by rw [h1]⟩
  · intro vs svc info hr hu hv
    have hfresh : dictMem svc.users (svc.users.length + 1) = false :=
      dictMem_top_false (userInv_reachable hr)
    have hreg : register vs svc info =
        (.ok { uid := svc.users.length + 1, info := info },
          { users := (dictSet svc.users (svc.users.length + 1)
            { uid := svc.users.length + 1, info := info }) }) := by
      unfold register
      rw [hu, hv]
      rfl
    refine ⟨by rw [hreg], hfresh, ?_⟩
    rw [hreg]
    show dictGet? (dictSet svc.users (svc.users.length + 1)
      { uid := svc.users.length + 1, info := info }) (svc.users.length + 1) = _
    rw [dictSet_of_mem_false _ hfresh]
    exact dictGet?_append_fresh _ hfresh
  · intro u n b p
    rfl

/-- C1 witness: the conflict case at the concrete registry `svcAlice`
(username "alice" taken) and the success case at the empty registry. -/
theorem C1_register_conflict_and_success_witness :
    (hasUsername svcAlice infoAlice.username = true ∧
      register defaultValidators svcAlice infoAlice = (.error .conflictError, svcAlice)) ∧
    (UserReachable emptyUsers ∧
      hasUsername emptyUsers infoAlice.username = false ∧
      defaultValidators.all (fun v => v infoAlice.password) = true ∧
      (register defaultValidators emptyUsers infoAlice).1 =
        .ok { uid := 1, info := infoAlice }) := by
  refine ⟨⟨by decide, ?_⟩, ⟨UserReachable.empty, by decide, by decide, ?_⟩⟩
  · exact (C1_register_conflict_and_success.1 defaultValidators svcAlice infoAlice
      (by decide)).1
  · exact (C1_register_conflict_and_success.2.1 defaultValidators emptyUsers infoAlice
      UserReachable.empty (by decide) (by decide)).1

/-- C3 counterexample: a password of length at most 8 does not always make
registration fail with ValidationError — when the username is also already
taken, the duplicate-username check fires first and the call fails with
ConflictError instead (registry `svcAlice`, request `infoAliceShort`). -/
theorem C3_short_password_counterexample :
    infoAliceShort.password.length ≤ 8 ∧
    password_is_longer_than_8 infoAliceShort.password = false ∧
    (register defaultValidators svcAlice infoAliceShort).1 = .error .conflictError ∧
    (register defaultValidators svcAlice infoAliceShort).1 ≠ .error .validationError := by
  refine ⟨by decide, by decide, by decide, by decide⟩

/-- C3 (amended): the default predicate rejects every password of length at
most 8 and accepts every password of length greater than 8 (both sides of
the 8 versus 9 boundary); a registration whose password the default
predicate rejects never mutates the registry and always fails, and it fails
with ValidationError whenever the username is not already taken (a taken
username yields ConflictError first). -/
theorem C3_password_boundary :
    (∀ s : String, s.length ≤ 8 → password_is_longer_than_8 s = false) ∧
    (∀ s : String, 8 < s.length → password_is_longer_than_8 s = true) ∧
    (∀ (svc : UserService) (info : UserInfo),
      password_is_longer_than_8 info.password = false →
        (∃ err, (register defaultValidators svc info).1 = .error err) ∧
        (register defaultValidators svc info).2 = svc) ∧
    (∀ (svc : UserService) (info : UserInfo),
      hasUsername svc info.username = false →
      password_is_longer_than_8 info.password = false →
        register defaultValidators svc info = (.error .validationError, svc)) := by
  have hall : ∀ (info : UserInfo),
      (defaultValidators.all (fun v => v info.password)) =
        password_is_longer_than_8 info.password := by
    intro info
    simp [defaultValidators]
  refine ⟨?_, ?_, ?_, ?_⟩
  · intro s h
    unfold password_is_longer_than_8
    simp only [decide_eq_false_iff_not, gt_iff_lt, not_lt]
    exact h
  · intro s h
    unfold password_is_longer_than_8
    simp only [gt_iff_lt, decide_eq_true_eq]
    exact h
  · intro svc info hpw
    by_cases hu : hasUsername svc info.username = true
    · constructor
      · refine ⟨.conflictError, ?_⟩
        unfold register
        rw [hu]
        rfl
      · unfold register
        rw [hu]
        rfl
    · simp only [Bool.not_eq_true] at hu
      have hv : (!(defaultValidators.all (fun v => v info.password))) = true := by
        rw [hall, hpw]
        rfl
      constructor
      · refine ⟨.validationError, ?_⟩
        unfold register
        rw [hu, hv]
        rfl
      · unfold register
        rw [hu, hv]
        rfl
  · intro svc info hu hpw
    have hv : (!(defaultValidators.all (fun v => v info.password))) = true := by
      rw [hall, hpw]
      rfl
    unfold register
    rw [hu, hv]
    rfl

/-- C3 witness: the boundary strings of length 8 and 9, and a concrete
fresh-username registration with a short password at the empty registry. -/
theorem C3_password_boundary_witness :
    ("12345678".length ≤ 8 ∧ password_is_longer_than_8 "12345678" = false) ∧
    (8 < "123456789".length ∧ password_is_longer_than_8 "123456789" = true) ∧
    (hasUsername emptyUsers infoAliceShort.username = false ∧
      password_is_longer_than_8 infoAliceShort.password = false ∧
      register defaultValidators emptyUsers infoAliceShort =
        (.error .validationError, emptyUsers)) := by
  refine ⟨⟨by decide, ?_⟩, ⟨by decide, ?_⟩, by decide, by decide, ?_⟩
  · exact C3_password_boundary.1 "12345678" (by decide)
  · exact C3_password_boundary.2.1 "123456789" (by decide)
  · exact C3_password_boundary.2.2.2 emptyUsers infoAliceShort (by decide) (by decide)

/-- C2 counterexample: in lecture 3 a PATCH (and a PUT) on the soft-deleted
product of `sDel` fails with 404 "Item not found", not with the
not-modified signal (304) the claim asserts for every PUT/PATCH. -/
theorem C2_deleted_update_counterexample :
    (Lecture3.patch_product 1 [] sDel).1 = .error ⟨404, "Item not found"⟩ ∧
    (Lecture3.patch_product 1 [] sDel).1 ≠ .error ⟨304, "Not modified"⟩ ∧
    (Lecture3.update_product 1 [ProductField.nameField "x", ProductField.priceField 2] sDel).1 =
      .error ⟨404, "Item not found"⟩ ∧
    (Lecture3.update_product 1 [ProductField.nameField "x", ProductField.priceField 2] sDel).1 ≠
      .error ⟨304, "Not modified"⟩ := by
  refine ⟨by decide, by decide, by decide, by decide⟩

/-- C2 (amended): for a soft-deleted product, lecture 2's PUT and PATCH fail
with the 304 not-modified signal and lecture 3's PUT and PATCH fail with 404
NotFound, all without mutating the store; in both lectures GET fails with
404 NotFound and a listing without `show_deleted` never includes the
product. -/
theorem C2_soft_deleted_product :
    ∀ (s : ShopState) (pid : Nat) (p : Product) (fields : List ProductField),
      dictGet? s.item_storage pid = some p → p.deleted = true →
      Lecture2.patch_product pid fields s = (.error ⟨304, "Not modified"⟩, s) ∧
      Lecture2.update_product pid fields s = (.error ⟨304, "Not modified"⟩, s) ∧
      Lecture2.retrieve_product pid s = .error ⟨404, "Item not found (deleted)"⟩ ∧
      Lecture3.patch_product pid fields s = (.error ⟨404, "Item not found"⟩, s) ∧
      Lecture3.update_product pid fields s = (.error ⟨404, "Item not found"⟩, s) ∧
      Lecture3.retrieve_product pid s = .error ⟨404, "Item not found"⟩ ∧
      (∀ (offset limit : Nat) (mn mx : Option Rat),
        p ∉ Lecture2.list_products offset limit mn mx false s) ∧
      (∀ (offset limit : Nat) (mn mx : Option Rat),
        p ∉ Lecture3.list_products offset limit mn mx false s) := by
  intro s pid p fields hget hdel
  refine ⟨?_, ?_, ?_, ?_, ?_, ?_, ?_, ?_⟩
  · unfold Lecture2.patch_product
    rw [hget]
    simp [hdel]
  · unfold Lecture2.update_product
    rw [hget]
    simp [hdel]
  · unfold Lecture2.retrieve_product
    rw [hget]
    simp [hdel]
  · unfold Lecture3.patch_product
    rw [hget]
    simp [hdel]
  · unfold Lecture3.update_product
    rw [hget]
    simp [hdel]
  · unfold Lecture3.retrieve_product
    rw [hget]
    simp [hdel]
  · intro offset limit mn mx hmem
    unfold Lecture2.list_products at hmem
    have h1 := List.take_subset _ _ hmem
    have h2 := List.drop_subset _ _ h1
    have h3 := List.of_mem_filter h2
    rw [hdel] at h3
    simp at h3
  · intro offset limit mn mx hmem
    unfold Lecture3.list_products at hmem
    have h1 := List.take_subset _ _ hmem
    have h2 := List.drop_subset _ _ h1
    have h3 := List.of_mem_filter h2
    rw [hdel] at h3
    simp at h3

/-- C2 witness: instantiation at the concrete one-product store `sDel`
(product 1 soft-deleted, empty update body). -/
theorem C2_soft_deleted_product_witness :
    dictGet? sDel.item_storage 1 = some pDel ∧ pDel.deleted = true ∧
    Lecture2.patch_product 1 [] sDel = (.error ⟨304, "Not modified"⟩, sDel) ∧
    Lecture2.retrieve_product 1 sDel = .error ⟨404, "Item not found (deleted)"⟩ ∧
    Lecture3.patch_product 1 [] sDel = (.error ⟨404, "Item not found"⟩, sDel) ∧
    (∀ (offset limit : Nat) (mn mx : Option Rat),
      pDel ∉ Lecture2.list_products offset limit mn mx false sDel) := by
  have h := C2_soft_deleted_product sDel 1 pDel [] (by decide) (by decide)
  exact ⟨by decide, by decide, h.1, h.2.2.1, h.2.2.2.1, h.2.2.2.2.2.2.1⟩

/-- C7: in every reachable shop state, product-creation and cart-creation
(both lectures) assign the identifier `current_count + 1`; the key lists of
both storages are exactly `1, ..., count` — entries are never removed — so
all assigned product identifiers are pairwise distinct, and likewise all
cart identifiers. -/
theorem C7_identifier_assignment :
    ∀ s : ShopState, ShopReachable s →
      (∀ (pname : String) (pprice : Rat),
        (Lecture2.create_product pname pprice s).1.id = s.item_storage.length + 1) ∧
      (Lecture2.create_shopping_cart s).1 = s.cart_storage.length + 1 ∧
      (∀ (pname : String) (pprice : Rat),
        (Lecture3.create_product pname pprice s).1.id = s.item_storage.length + 1) ∧
      (Lecture3.create_cart s).1 = s.cart_storage.length + 1 ∧
      dictKeys s.item_storage = List.range' 1 s.item_storage.length ∧
      dictKeys s.cart_storage = List.range' 1 s.cart_storage.length ∧
      (dictKeys s.item_storage).Nodup ∧
      (dictKeys s.cart_storage).Nodup := by
  intro s hr
  obtain ⟨h1, h2, h3, h4⟩ := shopInv_reachable hr
  refine ⟨fun _ _ => rfl, rfl, fun _ _ => rfl, rfl, h2, h1, ?_, ?_⟩
  · rw [h2]
    exact List.nodup_range' _ _
  · rw [h1]
    exact List.nodup_range' _ _

/-- C7 witness: instantiation at the reachable state `sDemo` (one cart, one
product, one add): the next product id and cart id are both 2. -/
theorem C7_identifier_assignment_witness :
    ShopReachable sDemo ∧
    (Lecture2.create_shopping_cart sDemo).1 = 2 ∧
    (Lecture2.create_product "banana" 7 sDemo).1.id = 2 ∧
    (dictKeys sDemo.item_storage).Nodup := by
  have hr : ShopReachable sDemo :=
    ShopReachable.step
      (ShopReachable.step
        (ShopReachable.step ShopReachable.empty (ShopStep.createCart emptyShop))
        (ShopStep.createProduct _ "apple" 5))
      (ShopStep.addItem _ 1 1)
  have h := C7_identifier_assignment sDemo hr
  exact ⟨hr, h.2.1, h.1 "banana" 7, h.2.2.2.2.2.2.1⟩

/-- C10: in every reachable shop state (in particular any state built only
by cart-creation and add-to-cart), each cart's aggregate quantity equals the
sum of the quantities of its item-list entries, every entry's quantity is at
least 1, and no two entries of one cart share a product identifier. -/
theorem C10_cart_aggregate_invariant :
    ∀ s : ShopState, ShopReachable s →
      ∀ c ∈ dictValues s.cart_storage,
        c.quantity = (c.items.map (fun it => it.quantity)).sum ∧
        (∀ it ∈ c.items, 1 ≤ it.quantity) ∧
        (c.items.map (fun it => it.id)).Nodup := by
  intro s hr
  exact (shopInv_reachable hr).2.2.2

/-- C10 witness: instantiation at the reachable state `sDemo`. -/
theorem C10_cart_aggregate_invariant_witness :
    ShopReachable sDemo ∧
    ∀ c ∈ dictValues sDemo.cart_storage,
      c.quantity = (c.items.map (fun it => it.quantity)).sum ∧
      (∀ it ∈ c.items, 1 ≤ it.quantity) ∧
      (c.items.map (fun it => it.id)).Nodup := by
  have hr : ShopReachable sDemo :=
    ShopReachable.step
      (ShopReachable.step
        (ShopReachable.step ShopReachable.empty (ShopStep.createCart emptyShop))
        (ShopStep.createProduct _ "apple" 5))
      (ShopStep.addItem _ 1 1)
  exact ⟨hr, C10_cart_aggregate_invariant sDemo hr⟩

/-- C9: for an existing cart and an existing product, add-to-cart succeeds
and is an upsert keyed by the product identifier: if an entry with that id
is already in the cart's item list, the first such entry's quantity is
incremented by 1 and no new entry is appended (the list keeps its length and
all other entries); otherwise exactly one new entry with quantity 1 is
appended; in both cases the cart's aggregate price grows by the product's
current price and its aggregate quantity by 1. -/
theorem C9_add_to_cart_upsert :
    ∀ (s : ShopState) (cid iid : Nat) (cart : ShoppingCart) (item : Product),
      dictGet? s.cart_storage cid = some cart →
      dictGet? s.item_storage iid = some item →
      (Lecture2.add_product_to_cart cid iid s).1 = .ok "Item added to cart" ∧
      ∃ cart',
        dictGet? (Lecture2.add_product_to_cart cid iid s).2.cart_storage cid = some cart' ∧
        cart'.price = cart.price + item.price ∧
        cart'.quantity = cart.quantity + 1 ∧
        (cart.items.any (fun cp => cp.id == iid) = true →
          cart'.items.length = cart.items.length ∧
          ∃ l1 cp l2, cart.items = l1 ++ cp :: l2 ∧
            (∀ x ∈ l1, (x.id == iid) = false) ∧ cp.id = iid ∧
            cart'.items = l1 ++ { cp with quantity := cp.quantity + 1 } :: l2) ∧
        (cart.items.any (fun cp => cp.id == iid) = false →
          cart'.items = cart.items ++
            [{ id := item.id, name := item.name, quantity := 1,
               available := !item.deleted }]) := by
  intro s cid iid cart item hc hi
  have hm : dictMem s.cart_storage cid = true := dictMem_true_of_get? hc
  have hstate : Lecture2.add_product_to_cart cid iid s =
      (.ok "Item added to cart",
        { s with cart_storage := dictModify s.cart_storage cid (fun c =>
            { c with
              items := add_item_to_list c.items iid item,
              price := c.price + item.price,
              quantity := c.quantity + 1 }) }) := by
    unfold Lecture2.add_product_to_cart
    simp only [hm, if_true, hi]
  refine ⟨by rw [hstate], ?_⟩
  refine ⟨{ cart with
    items := add_item_to_list cart.items iid item,
    price := cart.price + item.price,
    quantity := cart.quantity + 1 }, ?_, rfl, rfl, ?_, ?_⟩
  · rw [hstate]
    show dictGet? (dictModify s.cart_storage cid (fun c =>
      { c with
        items := add_item_to_list c.items iid item,
        price := c.price + item.price,
        quantity := c.quantity + 1 })) cid = _
    rw [dictGet?_modify, hc]
    rfl
  · intro hany
    obtain ⟨l1, cp, l2, heq, hl1, hcp, hadd⟩ := add_item_of_any_true item hany
    constructor
    · show (add_item_to_list cart.items iid item).length = cart.items.length
      rw [hadd, heq]
      simp
    · exact ⟨l1, cp, l2, heq, hl1, hcp, hadd⟩
  · intro hany
    exact add_item_of_any_false item hany

/-- C9 witness: adding product 2 to cart 1 of the concrete store `sCart`
(the cart already holds that product once). -/
theorem C9_add_to_cart_upsert_witness :
    dictGet? sCart.cart_storage 1 = some cartDemo ∧
    dictGet? sCart.item_storage 2 = some itemDemo ∧
    (Lecture2.add_product_to_cart 1 2 sCart).1 = .ok "Item added to cart" := by
  refine ⟨by decide, by decide, ?_⟩
  exact (C9_add_to_cart_upsert sCart 1 2 cartDemo itemDemo (by decide) (by decide)).1

/-- C8: the product listing returns exactly the stored products, in
insertion order, whose price lies inclusively between `min_price` and
`max_price` when given and which are not soft-deleted unless `show_deleted`
is set, restricted to the slice from `offset` to `offset + limit`; the cart
listing likewise keeps the carts whose aggregate price and total item
quantity lie inclusively within the given bounds, then takes the same
slice. -/
theorem C8_listing_filters :
    ∀ (offset limit : Nat) (mn mx : Option Rat) (sd : Bool) (mq Mq : Option Nat)
      (s : ShopState),
      Lecture2.list_products offset limit mn mx sd s =
        (((dictValues s.item_storage).filter (spec_product_visible mn mx sd)).drop
          offset).take limit ∧
      Lecture2.list_shopping_carts offset limit mn mx mq Mq s =
        (((dictValues s.cart_storage).filter (spec_cart_visible mn mx mq Mq)).drop
          offset).take limit := by
  intro offset limit mn mx sd mq Mq s
  constructor
  · have hfilter : (dictValues s.item_storage).filter (fun item =>
        (sd || !item.deleted) &&
        (match mn with | none => true | some mp => decide (item.price ≥ mp)) &&
        (match mx with | none => true | some mp => decide (item.price ≤ mp))) =
        (dictValues s.item_storage).filter (spec_product_visible mn mx sd) := by
      apply List.filter_congr
      intro item _
      unfold spec_product_visible
      cases mn <;> cases mx <;> cases hd : item.deleted <;> cases sd <;>
        simp [Option.all, ge_iff_le, hd, Bool.and_comm, Bool.and_left_comm, Bool.and_assoc]
    show (((dictValues s.item_storage).filter (fun item =>
        (sd || !item.deleted) &&
        (match mn with | none => true | some mp => decide (item.price ≥ mp)) &&
        (match mx with | none => true | some mp => decide (item.price ≤ mp)))).drop
        offset).take limit = _
    rw [hfilter]
  · have hfilter : (dictValues s.cart_storage).filter (fun cart =>
        (match mn with | none => true | some mp => decide (cart.price ≥ mp)) &&
        (match mx with | none => true | some mp => decide (cart.price ≤ mp)) &&
        (match mq with
         | none => true
         | some q => decide ((cart.items.map (fun item => item.quantity)).sum ≥ q)) &&
        (match Mq with
         | none => true
         | some q => decide ((cart.items.map (fun item => item.quantity)).sum ≤ q))) =
        (dictValues s.cart_storage).filter (spec_cart_visible mn mx mq Mq) := by
      apply List.filter_congr
      intro cart _
      unfold spec_cart_visible cart_total_quantity
      cases mn <;> cases mx <;> cases mq <;> cases Mq <;>
        simp [Option.all, ge_iff_le]
    show (((dictValues s.cart_storage).filter (fun cart =>
        (match mn with | none => true | some mp => decide (cart.price ≥ mp)) &&
        (match mx with | none => true | some mp => decide (cart.price ≤ mp)) &&
        (match mq with
         | none => true
         | some q => decide ((cart.items.map (fun item => item.quantity)).sum ≥ q)) &&
        (match Mq with
         | none => true
         | some q => decide ((cart.items.map (fun item => item.quantity)).sum ≤ q)))).drop
        offset).take limit = _
    rw [hfilter]
